import Mathlib

/-!
# Verification of the RPGMaker scraper's command-classification engine

Shallow embedding of the core of `rpgmaker_scraper.cpp` (revision in `src/`,
the one using `ResultInformationBase` / `std::shared_ptr` result records):
the per-opcode matchers (`scrape_event_page_condition`,
`scrape_command_if_statement`, `scrape_command_control_variable`,
`scrape_command_control_switch`, `scrape_command_script`,
`scrape_common_event_trigger`, `determine_access_from_script`), the
formatting helpers they call, the name-table lookups
(`get_variable_name`, `get_switch_name`), the per-page dispatch loop of
`scrape`, and the setup check of `load`.

Conventions:
* `uint32_t` values are modelled as `Nat` (no arithmetic is performed on
  them, only comparisons, so wrap-around cannot occur).
* A C++ `std::get<T>` on a `std::variant` holding another alternative
  throws `std::bad_variant_access`, and `std::vector::operator[]` out of
  bounds is undefined behaviour; both are modelled as the distinguished
  outcome `MatchOut.crash`, as is dereferencing an empty `std::optional`.
* A matcher returning `false` without touching the result record is
  `MatchOut.decline`; returning `true` after filling the record is
  `MatchOut.accept r`.
-/

namespace RPGMaker

/-- `variable_element = std::variant<uint32_t, double, bool, char, std::string>`
(`rpgmaker_types.hpp`).  The floating-point payload is never inspected by any
matcher or formatter, so it is elided; the constructor only serves as a
non-integer, non-string tag. -/
inductive VarElem where
  | int (v : Nat)
  | float
  | bool (b : Bool)
  | char (c : Char)
  | str (s : String)
deriving DecidableEq

/-- `enum class AccessType` (current header revision): NONE, READ, WRITE,
READWRITE.  NONE is the default a fresh `ResultInformationBase` carries. -/
inductive AccessType where
  | NONE
  | READ
  | WRITE
  | READWRITE
deriving DecidableEq

/-- `enum class ScrapeMode : uint32_t { VARIABLES, SWITCHES }`. -/
inductive ScrapeMode where
  | VARIABLES
  | SWITCHES
deriving DecidableEq

/-- `enum class CommonEventTrigger : uint32_t { NONE, AUTORUN, PARALLEL }`. -/
inductive CommonEventTrigger where
  | NONE
  | AUTORUN
  | PARALLEL
deriving DecidableEq

/-- `RPGMaker::Command`: opcode (raw `uint32_t` of `CommandCode`) plus the
decoded tagged parameter list. -/
structure Command where
  code : Nat
  parameters : List VarElem
deriving DecidableEq

/-- `Command::is_if_statement` (opcode 111). -/
def Command.is_if_statement (c : Command) : Bool := c.code == 111

/-- `Command::is_control_switch` (opcode 121). -/
def Command.is_control_switch (c : Command) : Bool := c.code == 121

/-- `Command::is_control_variable` (opcode 122). -/
def Command.is_control_variable (c : Command) : Bool := c.code == 122

/-- `Command::is_script` (opcode 355 or 655). -/
def Command.is_script (c : Command) : Bool := c.code == 355 || c.code == 655

/-- `RPGMaker::Condition`: two switch slots and one variable slot. -/
structure Condition where
  switch1_id : Nat
  switch1_valid : Bool
  switch2_id : Nat
  switch2_valid : Bool
  variable_id : Nat
  variable_valid : Bool
  variable_value : Nat
deriving DecidableEq

/-- `RPGMaker::EventPage`: activation condition plus command list. -/
structure EventPage where
  conditions : Condition
  list : List Command
deriving DecidableEq

/-- `RPGMaker::CommonEvent` (fields used by the scraper). -/
structure CommonEvent where
  id : Nat
  list : List Command
  name : String
  switch_id : Nat
  trigger : CommonEventTrigger
deriving DecidableEq

/-- Modelled from the spec: `CommonEvent::has_trigger` is declared in
`rpgmaker_types.hpp` but its body is not among the provided source files
(only its caller in `RPGMakerScraper::scrape` is).  Spec §4.3 describes the
trigger gate as existing "once per CommonEvent with trigger ≠ NONE", so the
predicate is `trigger ≠ NONE`. -/
def CommonEvent.has_trigger (ce : CommonEvent) : Bool :=
  ce.trigger != CommonEventTrigger.NONE

/-- `parameters[i]` followed by `std::get<uint32_t>`: `some v` when index `i`
exists and holds the integer alternative, `none` (a crash: out-of-bounds
access or `std::bad_variant_access`) otherwise. -/
def getUInt (ps : List VarElem) (i : Nat) : Option Nat :=
  match ps[i]? with
  | some (VarElem.int v) => some v
  | _ => none

/-- `parameters[i]` followed by `std::get<std::string>`: `some s` when index
`i` exists and holds the string alternative, `none` otherwise. -/
def getStr (ps : List VarElem) (i : Nat) : Option String :=
  match ps[i]? with
  | some (VarElem.str s) => some s
  | _ => none

end RPGMaker

open RPGMaker

/-- Fields a matcher writes into a `ResultInformationBase` on acceptance:
`access_type`, `active`, `formatted_action`.  (`line_number` and the owning
event are written by the caller `scrape`, not by the matchers.) -/
structure ResultData where
  access : AccessType
  active : Bool
  action : String
deriving DecidableEq

/-- Outcome of one matcher invocation: `crash` models an uncaught
`std::bad_variant_access` / out-of-bounds access / empty-optional
dereference, `decline` a `false` return, `accept` a `true` return together
with the data written into the shared result record. -/
inductive MatchOut (α : Type) where
  | crash
  | decline
  | accept (r : α)
deriving DecidableEq

/-- The scraper state the matchers read: mode, query id, the two name
tables (modelled as association lists, first match wins, mirroring
`std::map` with unique keys), and the resolved name of the query variable
(`variable_name`, set during `load`). -/
structure Scraper where
  mode : ScrapeMode
  query_id : Nat
  variable_names : List (Nat × String)
  switch_names : List (Nat × String)
  variable_name : String
deriving DecidableEq

/-- `std::map::find` on an id→name table. -/
def mapFind (tbl : List (Nat × String)) (id : Nat) : Option String :=
  (tbl.find? (fun p => p.1 == id)).map (fun p => p.2)

/-- `RPGMakerScraper::get_variable_name`: `nullopt` for id 0, an empty
table, or an absent id; `"#<id>"` for a present-but-empty name; the stored
name otherwise. -/
def get_variable_name (tbl : List (Nat × String)) (id : Nat) : Option String :=
  if id = 0 ∨ tbl.isEmpty then none
  else
    match mapFind tbl id with
    | none => none
    | some name => some (if name.isEmpty then "#" ++ toString id else name)

/-- `RPGMakerScraper::get_switch_name`: `nullopt` only for an empty table;
`"#<id> ?"` for an absent id; `"#<id>"` for a present-but-empty name; the
stored name otherwise. -/
def get_switch_name (tbl : List (Nat × String)) (id : Nat) : Option String :=
  if tbl.isEmpty then none
  else
    match mapFind tbl id with
    | none => some ("#" ++ toString id ++ " ?")
    | some name => some (if name.isEmpty then "#" ++ toString id else name)

/-- Whether `pat` is a prefix of `hay` (character lists). -/
def starts_with : List Char → List Char → Bool
  | _, [] => true
  | [], _ :: _ => false
  | h :: hs, p :: ps => (h == p) && starts_with hs ps

/-- Whether `pat` occurs as a contiguous substring of `hay`. -/
def has_substring : List Char → List Char → Bool
  | [], pat => pat.isEmpty
  | h :: hs, pat => starts_with (h :: hs) pat || has_substring hs pat

/-- `std::string_view::find(pat) != npos`. -/
def str_contains (hay pat : String) : Bool :=
  has_substring hay.data pat.data

/-- `RPGMakerScraper::determine_access_from_script`: looks for the read
accessor substring first, then the write mutator substring, built from the
mode and query id; first match wins; no match declines. -/
def determine_access_from_script (s : Scraper) (script_line : String) :
    MatchOut ResultData :=
  match s.mode with
  | ScrapeMode.VARIABLES =>
    if str_contains script_line
        ("$gameVariables.value(" ++ toString s.query_id ++ ")") then
      MatchOut.accept ⟨AccessType.READ, true, script_line⟩
    else if str_contains script_line
        ("$gameVariables.setValue(" ++ toString s.query_id) then
      MatchOut.accept ⟨AccessType.WRITE, true, script_line⟩
    else MatchOut.decline
  | ScrapeMode.SWITCHES =>
    if str_contains script_line
        ("$gameSwitches.value(" ++ toString s.query_id ++ ")") then
      MatchOut.accept ⟨AccessType.READ, true, script_line⟩
    else if str_contains script_line
        ("$gameSwitches.setValue(" ++ toString s.query_id) then
      MatchOut.accept ⟨AccessType.WRITE, true, script_line⟩
    else MatchOut.decline

/-- The fixed operator table of `format_command_if_statement`
({0:"=",1:">=",2:"<=",3:">",4:"<",5:"!="}).  Callers guard `op < 6` before
the `at()` lookup, so the default arm is unreachable there. -/
def operator_str (op : Nat) : String :=
  match op with
  | 0 => "=" | 1 => ">=" | 2 => "<=" | 3 => ">" | 4 => "<" | 5 => "!=" | _ => ""

/-- The fixed operation table of `format_command_control_variable`
({0:"=",1:"+=",2:"-=",3:"*=",4:"/=",5:"%="}).  Callers guard `op < 6`
before the `at()` lookup, so the default arm is unreachable there. -/
def operation_str (op : Nat) : String :=
  match op with
  | 0 => "=" | 1 => "+=" | 2 => "-=" | 3 => "*=" | 4 => "/=" | 5 => "%=" | _ => ""

/-- `RPGMakerScraper::format_event_page_condition`.  In SWITCHES mode the
both-valid branch keeps the source's redundant inner conditionals verbatim.
`none` models the undefined dereference of an empty optional from
`get_switch_name` (possible only when the switch table is empty). -/
def format_event_page_condition (s : Scraper) (cond : Condition) :
    Option String :=
  match s.mode with
  | ScrapeMode.VARIABLES =>
    some ("IF \x7b" ++ s.variable_name ++ "\x7d >= " ++ toString cond.variable_value ++ ":")
  | ScrapeMode.SWITCHES =>
    if cond.switch1_valid && cond.switch2_valid then
      match get_switch_name s.switch_names
              (if cond.switch1_valid then cond.switch1_id else cond.switch2_id),
            get_switch_name s.switch_names
              (if cond.switch2_valid then cond.switch2_id else cond.switch1_id) with
      | some a, some b => some ("IF " ++ "\x7b" ++ a ++ "\x7d && \x7b" ++ b ++ "\x7d" ++ ":")
      | _, _ => none
    else if cond.switch1_valid then
      match get_switch_name s.switch_names cond.switch1_id with
      | some a => some ("IF " ++ "\x7b" ++ a ++ "\x7d" ++ ":")
      | none => none
    else if cond.switch2_valid then
      match get_switch_name s.switch_names cond.switch2_id with
      | some a => some ("IF " ++ "\x7b" ++ a ++ "\x7d" ++ ":")
      | none => none
    else some ("IF " ++ ":")

/-- `RPGMakerScraper::scrape_event_page_condition`.  VARIABLES mode: the
variable slot must name the query id, with the id==1 rule gated on
`variable_valid`; emits READ with `active = variable_valid`.  SWITCHES
mode: declines when neither switch slot names the query id, or when the
query id is 1 and both validity flags are false; emits READ with
`active = switch1_valid || switch2_valid`. -/
def scrape_event_page_condition (s : Scraper) (page : EventPage) :
    MatchOut ResultData :=
  match s.mode with
  | ScrapeMode.VARIABLES =>
    if page.conditions.variable_id ≠ s.query_id then MatchOut.decline
    else if s.query_id = 1 ∧ ¬page.conditions.variable_valid then MatchOut.decline
    else
      match format_event_page_condition s page.conditions with
      | none => MatchOut.crash
      | some action =>
        MatchOut.accept ⟨AccessType.READ, page.conditions.variable_valid, action⟩
  | ScrapeMode.SWITCHES =>
    if page.conditions.switch1_id ≠ s.query_id ∧
       page.conditions.switch2_id ≠ s.query_id then MatchOut.decline
    else if s.query_id = 1 ∧
        (¬page.conditions.switch1_valid ∧ ¬page.conditions.switch2_valid) then
      MatchOut.decline
    else
      match format_event_page_condition s page.conditions with
      | none => MatchOut.crash
      | some action =>
        MatchOut.accept ⟨AccessType.READ,
          page.conditions.switch1_valid || page.conditions.switch2_valid, action⟩

/-- `RPGMakerScraper::format_command_if_statement`.  VARIABLES mode: the
operator comes from `parameters[4]` through `operator_str`; an
out-of-table code returns the bare string "malformed operator" (replacing
the whole description, "If: " prefix included).  SWITCHES mode: shows the
compared switch's name and ON/OFF from `parameters[2]`. -/
def format_command_if_statement (s : Scraper) (ps : List VarElem) :
    Option String :=
  match s.mode with
  | ScrapeMode.VARIABLES =>
    match getUInt ps 2, getUInt ps 3 with
    | some p2, some p3 =>
      let being_compared_against : Bool := (p2 == 1) && (p3 == s.query_id)
      match getUInt ps 4 with
      | none => none
      | some oper =>
        if oper ≥ 6 then some "malformed operator"
        else if !being_compared_against then
          match get_variable_name s.variable_names s.query_id with
          | none => none
          | some nm =>
            some ("If: " ++ "\x7b" ++ nm ++ "\x7d " ++ operator_str oper ++ " " ++
                  toString p3 ++ ":")
        else
          match getUInt ps 1, get_variable_name s.variable_names s.query_id with
          | some p1, some nm =>
            some ("If: " ++ "\x7b#" ++ toString p1 ++ "\x7d " ++ operator_str oper ++
                  " \x7b" ++ nm ++ "\x7d:")
          | _, _ => none
    | _, _ => none
  | ScrapeMode.SWITCHES =>
    match getUInt ps 1 with
    | none => none
    | some switch_compared =>
      match get_switch_name s.switch_names switch_compared, getUInt ps 2 with
      | some nm, some p2 =>
        some ("If: " ++ "\x7b" ++ nm ++ "\x7d is " ++ (if p2 ≠ 0 then "OFF" else "ON"))
      | _, _ => none

/-- `RPGMakerScraper::scrape_command_if_statement`.  `parameters[0]` is read
before any arity check (an empty or wrongly tagged parameter 0 crashes).
SCRIPT variant (tag 12, 2 params) delegates to the script matcher.
VARIABLES mode requires tag VARIABLE (1) and 5 params; CONSTANT comparisons
(`parameters[2] = 0`) need `parameters[1] = query`, VARIABLE comparisons
(`parameters[2] = 1`) need both `parameters[1]` and `parameters[3]` equal to
the query.  SWITCHES mode requires tag SWITCH (0), 3 params and
`parameters[1] = query`.  Acceptance emits READ, active. -/
def scrape_command_if_statement (s : Scraper) (cmd : Command) :
    MatchOut ResultData :=
  match getUInt cmd.parameters 0 with
  | none => MatchOut.crash
  | some id_type =>
    if id_type = 12 then
      if cmd.parameters.length ≠ 2 then MatchOut.decline
      else
        match getStr cmd.parameters 1 with
        | none => MatchOut.crash
        | some line => determine_access_from_script s line
    else
      match s.mode with
      | ScrapeMode.VARIABLES =>
        if id_type ≠ 1 ∨ cmd.parameters.length ≠ 5 then MatchOut.decline
        else
          match getUInt cmd.parameters 2, getUInt cmd.parameters 3,
                getUInt cmd.parameters 1 with
          | some compare_type, some compared_id, some id =>
            if compare_type = 0 ∧ id ≠ s.query_id then MatchOut.decline
            else if compare_type = 1 ∧ (id ≠ s.query_id ∨ compared_id ≠ s.query_id) then
              MatchOut.decline
            else
              match format_command_if_statement s cmd.parameters with
              | none => MatchOut.crash
              | some action => MatchOut.accept ⟨AccessType.READ, true, action⟩
          | _, _, _ => MatchOut.crash
      | ScrapeMode.SWITCHES =>
        if id_type ≠ 0 ∨ cmd.parameters.length ≠ 3 then MatchOut.decline
        else
          match getUInt cmd.parameters 1 with
          | none => MatchOut.crash
          | some id =>
            if id ≠ s.query_id then MatchOut.decline
            else
              match format_command_if_statement s cmd.parameters with
              | none => MatchOut.crash
              | some action => MatchOut.accept ⟨AccessType.READ, true, action⟩

/-- `RPGMakerScraper::format_command_control_variable`.  Faithful to the
source: both the operation-table index and the operand discriminant are
read from `parameters[3]` (lines 761 and 773); `parameters[2]` is never
consulted.  An index ≥ 6 returns the bare string "malformed operation"
before any name lookup; operand kinds other than CONSTANT, VARIABLE and
RANDOM return the member constant string "unsupported". -/
def format_command_control_variable (s : Scraper) (ps : List VarElem) :
    Option String :=
  match getUInt ps 0, getUInt ps 1 with
  | some variable_id_start, some variable_id_end =>
    match getUInt ps 3 with
    | none => none
    | some operation =>
      if operation ≥ 6 then some "malformed operation"
      else
        match (if variable_id_start ≠ variable_id_end then
                 match get_variable_name s.variable_names variable_id_start,
                       get_variable_name s.variable_names variable_id_end with
                 | some a, some b => some ("\x7b" ++ a ++ "\x7d .. \x7b" ++ b ++ "\x7d")
                 | _, _ => none
               else
                 match get_variable_name s.variable_names variable_id_start with
                 | some a => some ("\x7b" ++ a ++ "\x7d")
                 | none => none) with
        | none => none
        | some target =>
          if operation = 1 then
            match getUInt ps 4 with
            | none => none
            | some var_id =>
              match get_variable_name s.variable_names var_id with
              | none => none
              | some nm =>
                some (target ++ " " ++ operation_str operation ++ " \x7b" ++ nm ++ "\x7d")
          else if operation = 0 then
            match getUInt ps 4 with
            | none => none
            | some constant =>
              some (target ++ " " ++ operation_str operation ++ " " ++
                    toString constant)
          else if operation = 2 then
            match getUInt ps 4, getUInt ps 5 with
            | some mn, some mx =>
              some (target ++ " = Random " ++ toString mn ++ " .. " ++ toString mx)
            | _, _ => none
          else some "unsupported"
  | _, _ => none

/-- `RPGMakerScraper::scrape_command_control_variable`.  Declines outside
VARIABLES mode; reads the operand kind from `parameters[3]` before any
arity check; arity guards are per-operand (CONSTANT 0 / VARIABLE 1: 5
params, RANDOM 2: 6 params); `parameters[0]`/`[1]` are then read
unconditionally; SCRIPT (4) delegates `parameters[4]` (unchecked index) to
the script matcher; GAME_DATA (3) declines.  CONSTANT/RANDOM write when the
query id is the single target or inside the inclusive range; VARIABLE
classifies READWRITE / READ / WRITE from the source operand
`parameters[4]` and the range; an out-of-enum operand falls through every
branch and accepts with the record's default access NONE. -/
def scrape_command_control_variable (s : Scraper) (cmd : Command) :
    MatchOut ResultData :=
  if s.mode ≠ ScrapeMode.VARIABLES then MatchOut.decline
  else
    match getUInt cmd.parameters 3 with
    | none => MatchOut.crash
    | some operand =>
      if operand = 0 ∧ cmd.parameters.length ≠ 5 then MatchOut.decline
      else if operand = 1 ∧ cmd.parameters.length ≠ 5 then MatchOut.decline
      else if operand = 2 ∧ cmd.parameters.length ≠ 6 then MatchOut.decline
      else
        match getUInt cmd.parameters 0, getUInt cmd.parameters 1 with
        | some variable_id_start, some variable_id_end =>
          if operand = 4 then
            match getStr cmd.parameters 4 with
            | none => MatchOut.crash
            | some script_line => determine_access_from_script s script_line
          else if operand = 3 then MatchOut.decline
          else
            let acc : MatchOut AccessType :=
              if operand = 0 ∨ operand = 2 then
                if (¬variable_id_start ≠ variable_id_end ∧
                      variable_id_start ≠ s.query_id) ∨
                   (variable_id_start ≠ variable_id_end ∧
                      ¬(variable_id_start ≤ s.query_id ∧
                        s.query_id ≤ variable_id_end)) then
                  MatchOut.decline
                else MatchOut.accept AccessType.WRITE
              else if operand = 1 then
                match getUInt cmd.parameters 4 with
                | none => MatchOut.crash
                | some source =>
                  if source = s.query_id then
                    MatchOut.accept
                      (if variable_id_start ≤ s.query_id ∧
                          s.query_id ≤ variable_id_end then
                        AccessType.READWRITE
                      else AccessType.READ)
                  else if variable_id_start ≤ s.query_id ∧
                      s.query_id ≤ variable_id_end then
                    MatchOut.accept AccessType.WRITE
                  else MatchOut.decline
              else MatchOut.accept AccessType.NONE
            match acc with
            | MatchOut.crash => MatchOut.crash
            | MatchOut.decline => MatchOut.decline
            | MatchOut.accept a =>
              match format_command_control_variable s cmd.parameters with
              | none => MatchOut.crash
              | some action => MatchOut.accept ⟨a, true, action⟩
        | _, _ => MatchOut.crash

/-- `RPGMakerScraper::format_command_control_switch`: target (single name
or "a .. b") followed by "= ON" / "= OFF" from `parameters[2]`. -/
def format_command_control_switch (s : Scraper) (ps : List VarElem) :
    Option String :=
  match getUInt ps 0, getUInt ps 1 with
  | some switch_id_start, some switch_id_end =>
    match getUInt ps 2 with
    | none => none
    | some value =>
      match (if switch_id_start ≠ switch_id_end then
               match get_switch_name s.switch_names switch_id_start,
                     get_switch_name s.switch_names switch_id_end with
               | some a, some b => some ("\x7b" ++ a ++ "\x7d .. \x7b" ++ b ++ "\x7d")
               | _, _ => none
             else
               match get_switch_name s.switch_names switch_id_start with
               | some a => some ("\x7b" ++ a ++ "\x7d")
               | none => none) with
      | none => none
      | some target => some (target ++ " = " ++ (if value ≠ 0 then "OFF" else "ON"))
  | _, _ => none

/-- `RPGMakerScraper::scrape_command_control_switch`.  Declines outside
SWITCHES mode or when the arity is not exactly 3; accepts exactly when the
query id is the single target or inside the inclusive range, always
emitting WRITE, active. -/
def scrape_command_control_switch (s : Scraper) (cmd : Command) :
    MatchOut ResultData :=
  if s.mode ≠ ScrapeMode.SWITCHES then MatchOut.decline
  else if cmd.parameters.length ≠ 3 then MatchOut.decline
  else
    match getUInt cmd.parameters 0, getUInt cmd.parameters 1 with
    | some switch_id_start, some switch_id_end =>
      if (¬switch_id_start ≠ switch_id_end ∧ switch_id_start ≠ s.query_id) ∨
         (switch_id_start ≠ switch_id_end ∧
            ¬(switch_id_start ≤ s.query_id ∧ s.query_id ≤ switch_id_end)) then
        MatchOut.decline
      else
        match format_command_control_switch s cmd.parameters with
        | none => MatchOut.crash
        | some action => MatchOut.accept ⟨AccessType.WRITE, true, action⟩
    | _, _ => MatchOut.crash

/-- `RPGMakerScraper::scrape_command_script`: requires exactly one
parameter holding the string alternative (checked with
`holds_alternative`, so a wrong tag declines rather than crashes), then
delegates to the script matcher. -/
def scrape_command_script (s : Scraper) (cmd : Command) : MatchOut ResultData :=
  match cmd.parameters with
  | [VarElem.str line] => determine_access_from_script s line
  | _ => MatchOut.decline

/-- `RPGMakerScraper::format_common_event_trigger`:
`HAS TRIGGER: (AUTORUN|PARALLEL)`. -/
def format_common_event_trigger (ce : CommonEvent) : String :=
  "HAS TRIGGER: (" ++
    (if ce.trigger = CommonEventTrigger.AUTORUN then "AUTORUN" else "PARALLEL") ++ ")"

/-- `RPGMakerScraper::scrape_common_event_trigger`: accepts exactly when the
gating switch id equals the query id, emitting READ, active. -/
def scrape_common_event_trigger (s : Scraper) (ce : CommonEvent) :
    MatchOut ResultData :=
  if ce.switch_id ≠ s.query_id then MatchOut.decline
  else MatchOut.accept ⟨AccessType.READ, true, format_common_event_trigger ce⟩

/-- The trigger-gate step of `RPGMakerScraper::scrape` for one common
event (lines 292-304): the matcher runs only in SWITCHES mode and only when
`has_trigger()` holds; an acceptance contributes exactly one finding. -/
def common_event_trigger_findings (s : Scraper) (ce : CommonEvent) :
    List ResultData :=
  if s.mode = ScrapeMode.SWITCHES ∧ ce.has_trigger then
    match scrape_common_event_trigger s ce with
    | MatchOut.accept r => [r]
    | _ => []
  else []

/-- The opcode dispatch of one command inside `RPGMakerScraper::scrape`:
the `is_if_statement` / `is_control_variable` / `is_control_switch` /
`is_script` chain.  The opcode predicates are mutually exclusive, so at
most one matcher runs; a command of any other opcode yields no matcher
call, indistinguishable from a decline. -/
def dispatch_command (s : Scraper) (cmd : Command) : MatchOut ResultData :=
  if cmd.is_if_statement then scrape_command_if_statement s cmd
  else if cmd.is_control_variable then scrape_command_control_variable s cmd
  else if cmd.is_control_switch then scrape_command_control_switch s cmd
  else if cmd.is_script then scrape_command_script s cmd
  else MatchOut.decline

/-- The mutable fields of the single `MapEventResult` a page's scrape
shares between all of that page's findings (`scrape`, lines 242-287).
`event_info` is omitted: it is written once at cell creation and never
touched again, so it plays no part in the mutation behaviour. -/
structure MapCell where
  access : AccessType
  active : Bool
  line_number : Option Nat
  action : String
  event_page : Nat
deriving DecidableEq

/-- The command loop of `RPGMakerScraper::scrape` over one page's list
(lines 253-287): each accepted command overwrites the shared cell's
`access_type`, `active` and `formatted_action` (via the matcher) and its
`line_number` (line 258 etc.), then pushes one more reference to the same
cell; a crash aborts the run (`none`). -/
def scrape_page_go (s : Scraper) :
    List Command → Nat → MapCell → Nat → Option (Nat × MapCell)
  | [], _, cell, pushes => some (pushes, cell)
  | cmd :: rest, line_num, cell, pushes =>
    match dispatch_command s cmd with
    | MatchOut.crash => none
    | MatchOut.decline => scrape_page_go s rest (line_num + 1) cell pushes
    | MatchOut.accept r =>
      scrape_page_go s rest (line_num + 1)
        { cell with
            access := r.access, active := r.active, action := r.action,
            line_number := some (line_num + 1) }
        (pushes + 1)

/-- One page's processing in `RPGMakerScraper::scrape` (lines 242-287):
a single fresh `MapEventResult` (access NONE, inactive, no line number,
page number `page_num + 1`), the condition gate first, then the command
loop.  Returns the number of references pushed into `results[map_id]` and
the cell's final contents. -/
def scrape_page (s : Scraper) (page : EventPage) (page_num : Nat) :
    Option (Nat × MapCell) :=
  let init : MapCell :=
    { access := AccessType.NONE, active := false, line_number := none,
      action := "", event_page := page_num + 1 }
  match scrape_event_page_condition s page with
  | MatchOut.crash => none
  | MatchOut.decline => scrape_page_go s page.list 0 init 0
  | MatchOut.accept r =>
    scrape_page_go s page.list 0
      { init with access := r.access, active := r.active, action := r.action } 1

/-- The findings of one page as they stand once the pass is over: every
reference pushed for this page aliases the one shared cell, so each of the
`pushes` entries of `results[map_id]` presents the cell's final contents. -/
def scrape_page_findings (s : Scraper) (page : EventPage) (page_num : Nat) :
    Option (List MapCell) :=
  (scrape_page s page page_num).map (fun pr => List.replicate pr.1 pr.2)

/-- The setup check of `RPGMakerScraper::load` (lines 106-126), after the
name tables are populated: in VARIABLES mode a failed
`get_variable_name(query_id)` throws `std::invalid_argument`, in SWITCHES
mode a failed `get_switch_name(query_id)` does; only afterwards are maps
and common events scanned.  The scan itself is abstracted as the
continuation `scan`, evaluated only when the check passes — mirroring that
`scrape_maps()` / `scrape_common_events()` run strictly after the check. -/
def load_then_scan {α : Type} (s : Scraper) (scan : Unit → α) :
    Except String α :=
  match s.mode with
  | ScrapeMode.VARIABLES =>
    match get_variable_name s.variable_names s.query_id with
    | none => Except.error "invalid variable id"
    | some _ => Except.ok (scan ())
  | ScrapeMode.SWITCHES =>
    match get_switch_name s.switch_names s.query_id with
    | none => Except.error "invalid switch id"
    | some _ => Except.ok (scan ())

/-- The claim's per-slot reading of the id==1 rule for the SWITCHES-mode
condition gate, following the spec's words ("id==1 rule applied per slot":
a slot counts exactly when its id equals the query id and, for query id 1,
its own validity flag is true).  Stated for comparison with the source's
`scrape_event_page_condition`, which applies the rule to the slot pair
jointly. -/
def claim_gate_matches_per_slot (q : Nat) (cond : Condition) : Prop :=
  (cond.switch1_id = q ∧ (q = 1 → cond.switch1_valid)) ∨
  (cond.switch2_id = q ∧ (q = 1 → cond.switch2_valid))

instance (q : Nat) (cond : Condition) :
    Decidable (claim_gate_matches_per_slot q cond) := by
  unfold claim_gate_matches_per_slot
  exact inferInstance

/-- Fixture: VARIABLES-mode scraper querying variable 5 (named "gold"). -/
def c2_scraper : Scraper := ⟨ScrapeMode.VARIABLES, 5, [(5, "gold")], [], "gold"⟩

/-- Fixture: an event page whose condition gate names variable 5 (valid,
threshold 10) and whose line 1 is `Control Variable` #122 setting variable
5 to the constant 7. -/
def c2_page : EventPage :=
  ⟨⟨0, false, 0, false, 5, true, 10⟩,
   [⟨122, [VarElem.int 5, VarElem.int 5, VarElem.int 0, VarElem.int 0,
           VarElem.int 7]⟩]⟩

/-- Fixture: VARIABLES-mode scraper querying variable 5. -/
def c3_scraper : Scraper := ⟨ScrapeMode.VARIABLES, 5, [(5, "gold")], [], "gold"⟩

/-- Fixture: SWITCHES-mode scraper querying switch 1; the switch table
names switch 1 "A" and switch 7 "B". -/
def c5_scraper : Scraper := ⟨ScrapeMode.SWITCHES, 1, [], [(1, "A"), (7, "B")], ""⟩

/-- Fixture: a condition whose slot 1 names switch 1 with its validity
flag false, and whose slot 2 names switch 7 with its validity flag true. -/
def c5_cond : Condition := ⟨1, false, 7, true, 0, false, 0⟩

/-- Fixture: an event page carrying `c5_cond` and no commands. -/
def c5_page : EventPage := ⟨c5_cond, []⟩

/-- Fixture: VARIABLES-mode scraper querying variable 3 (named "hp"). -/
def c6_scraper : Scraper := ⟨ScrapeMode.VARIABLES, 3, [(3, "hp")], [], "hp"⟩

/-- Fixture: parameters of a `Control Variable` command: target range 3..3,
operation code 1 ("+=") at index 2, operand kind CONSTANT (0) at index 3,
constant value 7 at index 4. -/
def c6_params : List VarElem :=
  [VarElem.int 3, VarElem.int 3, VarElem.int 1, VarElem.int 0, VarElem.int 7]

lemma get_switch_name_total (tbl : List (Nat × String)) (id : Nat)
    (h : tbl ≠ []) :
    get_switch_name tbl id = some ((get_switch_name tbl id).getD "") := by
  unfold get_switch_name
  rw [if_neg (by simp [List.isEmpty_iff, h])]
  cases mapFind tbl id <;> simp

lemma get_variable_name_none (tbl : List (Nat × String)) (id : Nat)
    (h : id = 0 ∨ mapFind tbl id = none) :
    get_variable_name tbl id = none := by
  unfold get_variable_name
  by_cases h0 : id = 0
  · rw [if_pos (Or.inl h0)]
  · by_cases he : tbl.isEmpty
    · rw [if_pos (Or.inr he)]
    · rw [if_neg (by simp [h0, he])]
      rcases h with h | h
      · exact absurd h h0
      · rw [h]

lemma determine_access_from_script_read_or_write (s : Scraper)
    (line : String) (r : ResultData)
    (h : determine_access_from_script s line = MatchOut.accept r) :
    r.access = AccessType.READ ∨ r.access = AccessType.WRITE := by
  unfold determine_access_from_script at h
  split at h <;> split_ifs at h <;>
    simp only [MatchOut.accept.injEq] at h <;> rw [← h] <;> simp

/-- **C2** (code bug).  The spec states that a recorded Finding is immutable
and that one page's Findings each retain their own data.  The map-page loop
of `scrape` creates a single shared `MapEventResult` per page and pushes
the same pointer for the condition gate and for every matching command,
overwriting its fields each time.  On a page whose gate matches (recorded
as READ, `IF {gold} >= 10:`, no line number) and whose line 1 is a matching
Control Variable command, both recorded entries materialize with the
command's data (WRITE, line 1, `{gold} = 7`): the gate's recorded Finding
has been mutated by the later command. -/
theorem map_page_shared_result_mutation :
    scrape_event_page_condition c2_scraper c2_page =
      MatchOut.accept ⟨AccessType.READ, true, "IF \x7bgold\x7d >= 10:"⟩ ∧
    scrape_page_findings c2_scraper c2_page 0 =
      some [⟨AccessType.WRITE, true, some 1, "\x7bgold\x7d = 7", 1⟩,
            ⟨AccessType.WRITE, true, some 1, "\x7bgold\x7d = 7", 1⟩] := by
  constructor
  · decide
  · decide

/-- **C3** (code bug).  The spec's failure semantics say matchers never
raise and schema violations decline.  `scrape_command_if_statement` reads
`parameters[0]` before any arity or tag check, so an IF_STATEMENT command
with an empty parameter list is an out-of-bounds access, and one whose
first parameter carries the string tag raises `std::bad_variant_access`;
`scrape_command_control_variable` reads `parameters[3]` the same way, and
for a SCRIPT operand reads `parameters[4]` with no arity guard at all, so
a 4-parameter SCRIPT-operand command is an out-of-bounds access. -/
theorem matcher_unchecked_parameter_access_crashes :
    scrape_command_if_statement c3_scraper ⟨111, []⟩ = MatchOut.crash ∧
    scrape_command_if_statement c3_scraper
      ⟨111, [VarElem.str "x", VarElem.int 1]⟩ = MatchOut.crash ∧
    scrape_command_control_variable c3_scraper
      ⟨122, [VarElem.int 0, VarElem.int 0, VarElem.int 0, VarElem.int 4]⟩ =
      MatchOut.crash := by
  refine ⟨?_, ?_, ?_⟩ <;> decide

/-- **C6** (code bug).  The claim (and spec §4.3) places the operation code
at parameter index 2 and the operand kind at index 3, the rendered operator
being selected by the index-2 code.  `format_command_control_variable`
instead reads both the operation-table index and the operand discriminant
from `parameters[3]`: on an accepted CONSTANT command whose index-2
operation code is 1 ("+="), the rendering shows "=" (the table entry for
the operand kind 0), not "+=". -/
theorem control_variable_operator_ignores_operation_code :
    getUInt c6_params 2 = some 1 ∧
    operation_str 1 = "+=" ∧
    format_command_control_variable c6_scraper c6_params = some "\x7bhp\x7d = 7" ∧
    format_command_control_variable c6_scraper c6_params ≠
      some ("\x7bhp\x7d " ++ operation_str 1 ++ " 7") ∧
    scrape_command_control_variable c6_scraper ⟨122, c6_params⟩ =
      MatchOut.accept ⟨AccessType.WRITE, true, "\x7bhp\x7d = 7"⟩ := by
  refine ⟨?_, ?_, ?_, ?_, ?_⟩ <;> decide

/-- **C5** (counterexample).  The claim applies the id==1 rule per slot: a
slot naming id 1 counts only when that slot's own validity flag is true.
With query id 1 and a condition whose slot 1 names switch 1 with its flag
false while slot 2 names switch 7 (not the query) with its flag true, no
slot counts under the claimed rule, yet the source's gate accepts and
emits a READ Finding (active, rendered from slot 2's name): the source
declines only when both validity flags are false. -/
theorem switches_gate_per_slot_rule_counterexample :
    ¬claim_gate_matches_per_slot 1 c5_cond ∧
    scrape_event_page_condition c5_scraper c5_page =
      MatchOut.accept ⟨AccessType.READ, true, "IF \x7bB\x7d:"⟩ := by
  constructor
  · decide
  · decide

/-- **C1** (confirmed).  For a Control Variable command with VARIABLE
operand (`parameters[3] = 1`) and exactly 5 parameters, classified in
VARIABLES mode: source (`parameters[4]`) equal to the query id and query id
inside the inclusive destination range gives READWRITE; source equal but
query id outside the range gives READ; query id inside the range with a
differing source gives WRITE; otherwise the matcher declines. -/
theorem control_variable_variable_operand_classification
    (s : Scraper) (ps : List VarElem) (st en src : Nat) (act : String)
    (hm : s.mode = ScrapeMode.VARIABLES)
    (h5 : ps.length = 5)
    (hop : getUInt ps 3 = some 1)
    (hst : getUInt ps 0 = some st)
    (hen : getUInt ps 1 = some en)
    (hsrc : getUInt ps 4 = some src)
    (hfmt : format_command_control_variable s ps = some act) :
    (src = s.query_id ∧ (st ≤ s.query_id ∧ s.query_id ≤ en) →
      scrape_command_control_variable s ⟨122, ps⟩ =
        MatchOut.accept ⟨AccessType.READWRITE, true, act⟩) ∧
    (src = s.query_id ∧ ¬(st ≤ s.query_id ∧ s.query_id ≤ en) →
      scrape_command_control_variable s ⟨122, ps⟩ =
        MatchOut.accept ⟨AccessType.READ, true, act⟩) ∧
    (src ≠ s.query_id ∧ (st ≤ s.query_id ∧ s.query_id ≤ en) →
      scrape_command_control_variable s ⟨122, ps⟩ =
        MatchOut.accept ⟨AccessType.WRITE, true, act⟩) ∧
    (src ≠ s.query_id ∧ ¬(st ≤ s.query_id ∧ s.query_id ≤ en) →
      scrape_command_control_variable s ⟨122, ps⟩ = MatchOut.decline) := by
  refine ⟨?_, ?_, ?_, ?_⟩ <;> rintro ⟨h1, h2⟩ <;>
    simp [scrape_command_control_variable, hm, hop, hst, hen, hsrc, h5, hfmt,
          h1, h2]

/-- Witness for C1: a self-referential Control Variable command (range
2..9, VARIABLE operand, source variable 5) under query id 5 yields
READWRITE. -/
theorem control_variable_variable_operand_classification_witness :
    scrape_command_control_variable
      ⟨ScrapeMode.VARIABLES, 5, [(2, "a"), (9, "b"), (5, "c")], [], "c"⟩
      ⟨122, [VarElem.int 2, VarElem.int 9, VarElem.int 0, VarElem.int 1,
             VarElem.int 5]⟩ =
      MatchOut.accept ⟨AccessType.READWRITE, true, "\x7ba\x7d .. \x7bb\x7d += \x7bc\x7d"⟩ :=
  (control_variable_variable_operand_classification
      ⟨ScrapeMode.VARIABLES, 5, [(2, "a"), (9, "b"), (5, "c")], [], "c"⟩
      [VarElem.int 2, VarElem.int 9, VarElem.int 0, VarElem.int 1,
       VarElem.int 5]
      2 9 5 "\x7ba\x7d .. \x7bb\x7d += \x7bc\x7d"
      rfl rfl rfl rfl rfl rfl (by decide)).1 ⟨rfl, by decide⟩

/-- **C4** (confirmed).  With query id 1: the VARIABLES-mode condition gate
naming variable 1 declines when its validity flag is false; the
SWITCHES-mode condition gate naming switch 1 in either slot declines when
no validity flag is set true; and the common-event trigger gate naming
switch 1 contributes no finding when the event's trigger gate is absent
(`has_trigger` false, i.e. trigger NONE — the gate's validity flag,
modelled from the spec). -/
theorem default_id_one_requires_validity_flag
    (s : Scraper) (page : EventPage) (ce : CommonEvent)
    (h1 : s.query_id = 1) :
    (s.mode = ScrapeMode.VARIABLES → page.conditions.variable_id = 1 →
      page.conditions.variable_valid = false →
      scrape_event_page_condition s page = MatchOut.decline) ∧
    (s.mode = ScrapeMode.SWITCHES →
      page.conditions.switch1_id = 1 ∨ page.conditions.switch2_id = 1 →
      page.conditions.switch1_valid = false →
      page.conditions.switch2_valid = false →
      scrape_event_page_condition s page = MatchOut.decline) ∧
    (ce.switch_id = 1 → ce.has_trigger = false →
      common_event_trigger_findings s ce = []) := by
  refine ⟨?_, ?_, ?_⟩
  · intro hm hv hval
    simp [scrape_event_page_condition, hm, h1, hv, hval]
  · intro hm hid hv1 hv2
    rcases hid with hid | hid <;>
      simp [scrape_event_page_condition, hm, h1, hv1, hv2, hid]
  · intro _ htr
    simp [common_event_trigger_findings, htr]

/-- Witness for C4: with query id 1, a condition whose slot 1 names switch
1 with both flags false declines, and a common event gated on switch 1
with trigger NONE contributes no trigger finding. -/
theorem default_id_one_requires_validity_flag_witness :
    scrape_event_page_condition ⟨ScrapeMode.SWITCHES, 1, [], [(1, "A")], ""⟩
      ⟨⟨1, false, 3, false, 0, false, 0⟩, []⟩ = MatchOut.decline ∧
    common_event_trigger_findings ⟨ScrapeMode.SWITCHES, 1, [], [(1, "A")], ""⟩
      ⟨4, [], "ce", 1, CommonEventTrigger.NONE⟩ = [] :=
  ⟨(default_id_one_requires_validity_flag
      ⟨ScrapeMode.SWITCHES, 1, [], [(1, "A")], ""⟩
      ⟨⟨1, false, 3, false, 0, false, 0⟩, []⟩
      ⟨4, [], "ce", 1, CommonEventTrigger.NONE⟩ rfl).2.1
        rfl (Or.inl rfl) rfl rfl,
   (default_id_one_requires_validity_flag
      ⟨ScrapeMode.SWITCHES, 1, [], [(1, "A")], ""⟩
      ⟨⟨1, false, 3, false, 0, false, 0⟩, []⟩
      ⟨4, [], "ce", 1, CommonEventTrigger.NONE⟩ rfl).2.2 rfl rfl⟩

/-- **C7** (confirmed).  For a Control Switch command (SWITCHES mode,
exactly 3 parameters) and for Control Variable commands with CONSTANT or
RANDOM operand (VARIABLES mode, correct arity), a Finding is produced
exactly when the query id lies in the inclusive range [start, end]: inside
(borders included) the matcher accepts with WRITE, outside it declines.
With start = end the range behaves as the single id start, never as
empty. -/
theorem range_boundary_inclusive_law
    (s t : Scraper) (ps qs rs : List VarElem)
    (a b c d e f : Nat) (act1 act2 act3 : String)
    (hs : s.mode = ScrapeMode.SWITCHES)
    (ht : t.mode = ScrapeMode.VARIABLES)
    (hps0 : getUInt ps 0 = some a) (hps1 : getUInt ps 1 = some b)
    (hps3 : ps.length = 3)
    (hfmt1 : format_command_control_switch s ps = some act1)
    (hqs0 : getUInt qs 0 = some c) (hqs1 : getUInt qs 1 = some d)
    (hqs3 : getUInt qs 3 = some 0) (hqs5 : qs.length = 5)
    (hfmt2 : format_command_control_variable t qs = some act2)
    (hrs0 : getUInt rs 0 = some e) (hrs1 : getUInt rs 1 = some f)
    (hrs3 : getUInt rs 3 = some 2) (hrs6 : rs.length = 6)
    (hfmt3 : format_command_control_variable t rs = some act3) :
    (a ≤ s.query_id ∧ s.query_id ≤ b →
      scrape_command_control_switch s ⟨121, ps⟩ =
        MatchOut.accept ⟨AccessType.WRITE, true, act1⟩) ∧
    (¬(a ≤ s.query_id ∧ s.query_id ≤ b) →
      scrape_command_control_switch s ⟨121, ps⟩ = MatchOut.decline) ∧
    (c ≤ t.query_id ∧ t.query_id ≤ d →
      scrape_command_control_variable t ⟨122, qs⟩ =
        MatchOut.accept ⟨AccessType.WRITE, true, act2⟩) ∧
    (¬(c ≤ t.query_id ∧ t.query_id ≤ d) →
      scrape_command_control_variable t ⟨122, qs⟩ = MatchOut.decline) ∧
    (e ≤ t.query_id ∧ t.query_id ≤ f →
      scrape_command_control_variable t ⟨122, rs⟩ =
        MatchOut.accept ⟨AccessType.WRITE, true, act3⟩) ∧
    (¬(e ≤ t.query_id ∧ t.query_id ≤ f) →
      scrape_command_control_variable t ⟨122, rs⟩ = MatchOut.decline) := by
  refine ⟨?_, ?_, ?_, ?_, ?_, ?_⟩ <;> intro h <;>
    simp [scrape_command_control_switch, scrape_command_control_variable,
          hs, ht, hps0, hps1, hps3, hfmt1, hqs0, hqs1, hqs3, hqs5, hfmt2,
          hrs0, hrs1, hrs3, hrs6, hfmt3] <;>
    first
      | omega
      | (split_ifs with hc
         · exfalso; omega
         · rfl)
      | (split_ifs with hc
         · rfl
         · exfalso; omega)

/-- Witness for C7: Control Switch over range 10..12 under query id 11
accepts with WRITE, and under query id 13 declines; Control Variable with
CONSTANT operand over the single id 3 (start = end = 3) under query id 3
accepts with WRITE. -/
theorem range_boundary_inclusive_law_witness :
    scrape_command_control_switch
      ⟨ScrapeMode.SWITCHES, 11, [], [(10, "x"), (12, "y")], ""⟩
      ⟨121, [VarElem.int 10, VarElem.int 12, VarElem.int 1]⟩ =
      MatchOut.accept ⟨AccessType.WRITE, true, "\x7bx\x7d .. \x7by\x7d = OFF"⟩ ∧
    scrape_command_control_switch
      ⟨ScrapeMode.SWITCHES, 13, [], [(10, "x"), (12, "y")], ""⟩
      ⟨121, [VarElem.int 10, VarElem.int 12, VarElem.int 1]⟩ =
      MatchOut.decline ∧
    scrape_command_control_variable
      ⟨ScrapeMode.VARIABLES, 3, [(3, "hp2")], [], "hp2"⟩
      ⟨122, [VarElem.int 3, VarElem.int 3, VarElem.int 0, VarElem.int 0,
             VarElem.int 7]⟩ =
      MatchOut.accept ⟨AccessType.WRITE, true, "\x7bhp2\x7d = 7"⟩ :=
  ⟨(range_boundary_inclusive_law
      ⟨ScrapeMode.SWITCHES, 11, [], [(10, "x"), (12, "y")], ""⟩
      ⟨ScrapeMode.VARIABLES, 3, [(3, "hp2")], [], "hp2"⟩
      [VarElem.int 10, VarElem.int 12, VarElem.int 1]
      [VarElem.int 3, VarElem.int 3, VarElem.int 0, VarElem.int 0,
       VarElem.int 7]
      [VarElem.int 3, VarElem.int 3, VarElem.int 0, VarElem.int 2,
       VarElem.int 1, VarElem.int 6]
      10 12 3 3 3 3 "\x7bx\x7d .. \x7by\x7d = OFF" "\x7bhp2\x7d = 7" "\x7bhp2\x7d = Random 1 .. 6"
      rfl rfl rfl rfl rfl (by decide) rfl rfl rfl rfl (by decide)
      rfl rfl rfl rfl (by decide)).1 (by decide),
   (range_boundary_inclusive_law
      ⟨ScrapeMode.SWITCHES, 13, [], [(10, "x"), (12, "y")], ""⟩
      ⟨ScrapeMode.VARIABLES, 3, [(3, "hp2")], [], "hp2"⟩
      [VarElem.int 10, VarElem.int 12, VarElem.int 1]
      [VarElem.int 3, VarElem.int 3, VarElem.int 0, VarElem.int 0,
       VarElem.int 7]
      [VarElem.int 3, VarElem.int 3, VarElem.int 0, VarElem.int 2,
       VarElem.int 1, VarElem.int 6]
      10 12 3 3 3 3 "\x7bx\x7d .. \x7by\x7d = OFF" "\x7bhp2\x7d = 7" "\x7bhp2\x7d = Random 1 .. 6"
      rfl rfl rfl rfl rfl (by decide) rfl rfl rfl rfl (by decide)
      rfl rfl rfl rfl (by decide)).2.1 (by decide),
   (range_boundary_inclusive_law
      ⟨ScrapeMode.SWITCHES, 11, [], [(10, "x"), (12, "y")], ""⟩
      ⟨ScrapeMode.VARIABLES, 3, [(3, "hp2")], [], "hp2"⟩
      [VarElem.int 10, VarElem.int 12, VarElem.int 1]
      [VarElem.int 3, VarElem.int 3, VarElem.int 0, VarElem.int 0,
       VarElem.int 7]
      [VarElem.int 3, VarElem.int 3, VarElem.int 0, VarElem.int 2,
       VarElem.int 1, VarElem.int 6]
      10 12 3 3 3 3 "\x7bx\x7d .. \x7by\x7d = OFF" "\x7bhp2\x7d = 7" "\x7bhp2\x7d = Random 1 .. 6"
      rfl rfl rfl rfl rfl (by decide) rfl rfl rfl rfl (by decide)
      rfl rfl rfl rfl (by decide)).2.2.1 (by decide)⟩

/-- **C8** (confirmed).  In SWITCHES mode no matcher ever emits a READWRITE
Finding: every accepted Control Switch command yields WRITE; the condition
gate, switch-variant if-statements and the common-event trigger gate yield
READ; script-delegating matchers yield READ or WRITE; and the Control
Variable matcher (the only source of READWRITE) declines outright. -/
theorem switches_mode_never_readwrite
    (s : Scraper) (page : EventPage) (cmd : Command) (ce : CommonEvent)
    (r : ResultData) (hm : s.mode = ScrapeMode.SWITCHES) :
    (scrape_command_control_switch s cmd = MatchOut.accept r →
      r.access = AccessType.WRITE) ∧
    (scrape_event_page_condition s page = MatchOut.accept r →
      r.access = AccessType.READ) ∧
    (scrape_command_if_statement s cmd = MatchOut.accept r →
      r.access = AccessType.READ ∨ r.access = AccessType.WRITE) ∧
    ¬(scrape_command_control_variable s cmd = MatchOut.accept r) ∧
    (scrape_command_script s cmd = MatchOut.accept r →
      r.access = AccessType.READ ∨ r.access = AccessType.WRITE) ∧
    (scrape_common_event_trigger s ce = MatchOut.accept r →
      r.access = AccessType.READ) := by
  refine ⟨?_, ?_, ?_, ?_, ?_, ?_⟩
  · intro h
    unfold scrape_command_control_switch at h
    rw [hm] at h
    repeat
      first
        | (injection h with h'; subst h'; simp)
        | split at h
        | simp at h
  · intro h
    unfold scrape_event_page_condition at h
    rw [hm] at h
    repeat
      first
        | (injection h with h'; subst h'; simp)
        | split at h
        | simp at h
  · intro h
    unfold scrape_command_if_statement at h
    rw [hm] at h
    repeat
      first
        | (exact determine_access_from_script_read_or_write _ _ _ h)
        | (injection h with h'; subst h'; simp)
        | split at h
        | simp at h
  · intro h
    unfold scrape_command_control_variable at h
    rw [hm] at h
    simp at h
  · intro h
    unfold scrape_command_script at h
    repeat
      first
        | (exact determine_access_from_script_read_or_write _ _ _ h)
        | split at h
        | simp at h
  · intro h
    unfold scrape_common_event_trigger at h
    repeat
      first
        | (injection h with h'; subst h'; simp)
        | split at h
        | simp at h

/-- Witness for C8: an accepted Control Switch command in SWITCHES mode
(range 10..12, query 11) carries access WRITE. -/
theorem switches_mode_never_readwrite_witness :
    (⟨AccessType.WRITE, true, "\x7bx\x7d .. \x7by\x7d = OFF"⟩ : ResultData).access =
      AccessType.WRITE :=
  (switches_mode_never_readwrite
    ⟨ScrapeMode.SWITCHES, 11, [], [(10, "x"), (12, "y")], ""⟩
    ⟨⟨0, false, 0, false, 0, false, 0⟩, []⟩
    ⟨121, [VarElem.int 10, VarElem.int 12, VarElem.int 1]⟩
    ⟨0, [], "", 0, CommonEventTrigger.NONE⟩
    ⟨AccessType.WRITE, true, "\x7bx\x7d .. \x7by\x7d = OFF"⟩ rfl).1 (by decide)

/-- **C9** (confirmed).  In VARIABLES mode, a query id of 0 or one absent
from the variable name table makes `load` throw `std::invalid_argument`
during setup: the run returns the fatal error before the scan continuation
is ever evaluated, for every possible scan — hence no Findings. -/
theorem variables_mode_unknown_query_id_fatal
    {α : Type} (s : Scraper) (scan : Unit → α)
    (hm : s.mode = ScrapeMode.VARIABLES)
    (hbad : s.query_id = 0 ∨ mapFind s.variable_names s.query_id = none) :
    load_then_scan s scan = Except.error "invalid variable id" := by
  unfold load_then_scan
  rw [hm, get_variable_name_none s.variable_names s.query_id hbad]

/-- Witness for C9: a VARIABLES-mode scraper whose query id 9 is absent
from the variable table aborts with the fatal error. -/
theorem variables_mode_unknown_query_id_fatal_witness :
    load_then_scan ⟨ScrapeMode.VARIABLES, 9, [(5, "gold")], [], ""⟩
      (fun _ => ([] : List ResultData)) =
      Except.error "invalid variable id" :=
  variables_mode_unknown_query_id_fatal
    ⟨ScrapeMode.VARIABLES, 9, [(5, "gold")], [], ""⟩
    (fun _ => ([] : List ResultData)) rfl (Or.inr (by decide))

/-- **C10** (confirmed).  In SWITCHES mode the id-0 reservation does not
apply: with a non-empty switch table, `get_switch_name` returns a name for
every id — synthesizing "#<id> ?" for an id absent from the table — so
`load` never aborts on the switch-id check and the scan proceeds; in
VARIABLES mode, by contrast, id 0 always fails the lookup and an absent id
always fails it. -/
theorem switch_lookup_total_on_nonempty_table
    (stbl vtbl : List (Nat × String)) (id q : Nat) (hne : stbl ≠ []) :
    (∃ nm, get_switch_name stbl id = some nm) ∧
    (mapFind stbl id = none →
      get_switch_name stbl id = some ("#" ++ toString id ++ " ?")) ∧
    get_variable_name vtbl 0 = none ∧
    (mapFind vtbl id = none → get_variable_name vtbl id = none) ∧
    (∀ (α : Type) (scan : Unit → α),
      load_then_scan ⟨ScrapeMode.SWITCHES, q, vtbl, stbl, ""⟩ scan =
        Except.ok (scan ())) := by
  refine ⟨⟨_, get_switch_name_total stbl id hne⟩, ?_, ?_, ?_, ?_⟩
  · intro hf
    unfold get_switch_name
    rw [if_neg (by simp [List.isEmpty_iff, hne]), hf]
  · exact get_variable_name_none vtbl 0 (Or.inl rfl)
  · exact fun hf => get_variable_name_none vtbl id (Or.inr hf)
  · intro α scan
    unfold load_then_scan
    rw [get_switch_name_total stbl q hne]

/-- Witness for C10: with the one-entry switch table [(5, "door")], the
lookup of the absent id 0 synthesizes "#0 ?", and a SWITCHES-mode run
querying id 0 passes setup and reaches the scan. -/
theorem switch_lookup_total_on_nonempty_table_witness :
    get_switch_name [(5, "door")] 0 = some "#0 ?" ∧
    load_then_scan ⟨ScrapeMode.SWITCHES, 0, [], [(5, "door")], ""⟩
      (fun _ => (42 : Nat)) = Except.ok 42 :=
  ⟨(switch_lookup_total_on_nonempty_table [(5, "door")] [] 0 0
      (by decide)).2.1 (by decide),
   (switch_lookup_total_on_nonempty_table [(5, "door")] [] 0 0
      (by decide)).2.2.2.2 Nat (fun _ => 42)⟩

lemma format_event_page_condition_switches
    (s : Scraper) (cond : Condition)
    (hm : s.mode = ScrapeMode.SWITCHES) (hne : s.switch_names ≠ []) :
    format_event_page_condition s cond =
      some (if cond.switch1_valid && cond.switch2_valid then
              "IF " ++ "\x7b" ++
                (get_switch_name s.switch_names cond.switch1_id).getD "" ++
                "\x7d && \x7b" ++
                (get_switch_name s.switch_names cond.switch2_id).getD "" ++
                "\x7d" ++ ":"
            else if cond.switch1_valid then
              "IF " ++ "\x7b" ++
                (get_switch_name s.switch_names cond.switch1_id).getD "" ++
                "\x7d" ++ ":"
            else if cond.switch2_valid then
              "IF " ++ "\x7b" ++
                (get_switch_name s.switch_names cond.switch2_id).getD "" ++
                "\x7d" ++ ":"
            else "IF " ++ ":") := by
  obtain ⟨n1, hn1⟩ : ∃ nm, get_switch_name s.switch_names cond.switch1_id = some nm :=
    ⟨_, get_switch_name_total _ _ hne⟩
  obtain ⟨n2, hn2⟩ : ∃ nm, get_switch_name s.switch_names cond.switch2_id = some nm :=
    ⟨_, get_switch_name_total _ _ hne⟩
  unfold format_event_page_condition
  rw [hm]
  cases h1 : cond.switch1_valid <;> cases h2 : cond.switch2_valid <;>
    simp [h1, h2, hn1, hn2]

/-- **C5** (corrected / amended).  In SWITCHES mode the condition gate
yields a Finding iff some slot's id equals the query id and, when the
query id is 1, at least one of the two validity flags is true — the id==1
rule applies to the slot pair jointly, not per slot.  An accepted Finding
is READ with active equal to the OR of the two validity flags, and its
rendering joins both slot names with && when both flags are set, shows the
single valid slot's name when exactly one is set, and shows no name when
neither is set; names always pass through `get_switch_name`, so a bare
numeric id is never shown. -/
theorem switches_gate_joint_validity_rule
    (s : Scraper) (page : EventPage)
    (hm : s.mode = ScrapeMode.SWITCHES) (hne : s.switch_names ≠ []) :
    ((∃ r, scrape_event_page_condition s page = MatchOut.accept r) ↔
      ((page.conditions.switch1_id = s.query_id ∨
        page.conditions.switch2_id = s.query_id) ∧
       (s.query_id = 1 →
        (page.conditions.switch1_valid ∨ page.conditions.switch2_valid)))) ∧
    (∀ r, scrape_event_page_condition s page = MatchOut.accept r →
      r.access = AccessType.READ ∧
      r.active = (page.conditions.switch1_valid ||
                  page.conditions.switch2_valid) ∧
      r.action =
        (if page.conditions.switch1_valid && page.conditions.switch2_valid then
          "IF " ++ "\x7b" ++
            (get_switch_name s.switch_names page.conditions.switch1_id).getD "" ++
            "\x7d && \x7b" ++
            (get_switch_name s.switch_names page.conditions.switch2_id).getD "" ++
            "\x7d" ++ ":"
        else if page.conditions.switch1_valid then
          "IF " ++ "\x7b" ++
            (get_switch_name s.switch_names page.conditions.switch1_id).getD "" ++
            "\x7d" ++ ":"
        else if page.conditions.switch2_valid then
          "IF " ++ "\x7b" ++
            (get_switch_name s.switch_names page.conditions.switch2_id).getD "" ++
            "\x7d" ++ ":"
        else "IF " ++ ":")) := by
  have hfmt := format_event_page_condition_switches s page.conditions hm hne
  constructor
  · constructor
    · rintro ⟨r, hr⟩
      unfold scrape_event_page_condition at hr
      rw [hm] at hr
      simp only [hfmt] at hr
      by_cases hc1 : (page.conditions.switch1_id ≠ s.query_id ∧
          page.conditions.switch2_id ≠ s.query_id)
      · rw [if_pos hc1] at hr
        simp at hr
      · rw [if_neg hc1] at hr
        by_cases hc2 : (s.query_id = 1 ∧
            (¬page.conditions.switch1_valid ∧ ¬page.conditions.switch2_valid))
        · rw [if_pos hc2] at hr
          simp at hr
        · exact ⟨by tauto, by tauto⟩
    · rintro ⟨hid, hval⟩
      have hnc1 : ¬(page.conditions.switch1_id ≠ s.query_id ∧
          page.conditions.switch2_id ≠ s.query_id) := by tauto
      have hnc2 : ¬(s.query_id = 1 ∧
          (¬page.conditions.switch1_valid ∧
           ¬page.conditions.switch2_valid)) := by tauto
      unfold scrape_event_page_condition
      rw [hm]
      simp only [hfmt]
      rw [if_neg hnc1, if_neg hnc2]
      exact ⟨_, rfl⟩
  · intro r hr
    unfold scrape_event_page_condition at hr
    rw [hm] at hr
    simp only [hfmt] at hr
    by_cases hc1 : (page.conditions.switch1_id ≠ s.query_id ∧
        page.conditions.switch2_id ≠ s.query_id)
    · rw [if_pos hc1] at hr
      simp at hr
    · rw [if_neg hc1] at hr
      by_cases hc2 : (s.query_id = 1 ∧
          (¬page.conditions.switch1_valid ∧ ¬page.conditions.switch2_valid))
      · rw [if_pos hc2] at hr
        simp at hr
      · rw [if_neg hc2] at hr
        injection hr with h'
        subst h'
        exact ⟨rfl, rfl, rfl⟩

/-- Witness for the amended C5: the gate accepts on the counterexample's
condition (query id 1, slot 1 naming switch 1 with flag false, slot 2
valid), via the joint id==1 rule. -/
theorem switches_gate_joint_validity_rule_witness :
    ∃ r, scrape_event_page_condition c5_scraper c5_page = MatchOut.accept r :=
  (switches_gate_joint_validity_rule c5_scraper c5_page rfl
    (by decide)).1.mpr ⟨Or.inl rfl, fun _ => Or.inr rfl⟩
